import Mathlib

/-!
Verification of the persistent terminal session engine.

This file gives a shallow embedding of the core of the engine:
the scrollback sanitizer (terminal-scrollback-sanitizer.ts), the
per-session lifecycle state machine (SessionLifecycle), the attach
scheduler (scheduleTerminalAttach / pump), and the TerminalManager
operations (createOrAttach, write, setupExitHandler,
killSessionWithTimeout / killByWorkspaceId), together with theorems
settling the frozen claims about them.
-/

namespace TerminalEngine

/-! ## Scrollback sanitizer

Embedding of sanitizeTerminalScrollback.  The JavaScript regexes are
applied with the global flag and an empty (or single-capture)
replacement; for each pattern the greedy quantifiers are forced (the
character class of a starred group never overlaps the character that
must follow it), so each pattern has a deterministic match length at
any given position, computed by the matchers below.  A global replace
is a single left-to-right scan of the input: at each position the
pattern either matches (the match is dropped and the scan resumes
after it) or the character is copied.
-/

/-- escCh is the ESC byte 0x1b (the `ESC` constant of the source). -/
def escCh : Char := Char.ofNat 27

/-- isDigitCh mirrors the regex class `[0-9]` (`\d`). -/
def isDigitCh (c : Char) : Bool := '0' ≤ c && c ≤ '9'

/-- isDigitSemi mirrors the regex class `[0-9;]`. -/
def isDigitSemi (c : Char) : Bool := isDigitCh c || c == ';'

/-- isJsSpace mirrors the JavaScript regex class `\s`. -/
def isJsSpace (c : Char) : Bool :=
  c == ' ' || c == '\t' || c == '\n' || c == '\r' ||
  c.toNat == 11 || c.toNat == 12 ||
  c.toNat == 0xa0 || c.toNat == 0x1680 ||
  (0x2000 ≤ c.toNat && c.toNat ≤ 0x200a) ||
  c.toNat == 0x2028 || c.toNat == 0x2029 || c.toNat == 0x202f ||
  c.toNat == 0x205f || c.toNat == 0x3000 || c.toNat == 0xfeff

/-- countLeading counts the longest run of characters satisfying `p` at
the head of the list (the forced length of a greedy starred class). -/
def countLeading (p : Char → Bool) : List Char → Nat
  | [] => 0
  | c :: rest => if p c then countLeading p rest + 1 else 0

/-- consumeLit consumes an exact literal character sequence, returning
the remainder of the input on success. -/
def consumeLit : List Char → List Char → Option (List Char)
  | [], s => some s
  | _ :: _, [] => none
  | p :: ps, c :: cs => if c = p then consumeLit ps cs else none

/-- matchCsiResp is the common shape of the DA / CPR / mode-report
patterns: a literal introducer (`ESC [` raw, or `^[[` caret-escaped),
an optional `?` or `>`, a run of `[0-9;]`, and a literal final
sequence (`c`, `R`, or `$y`).  Returns the match length at the head of
the input, if any. -/
def matchCsiResp (intro fin : List Char) (s : List Char) : Option Nat :=
  match consumeLit intro s with
  | none => none
  | some t1 =>
    let optLen : Nat := match t1 with
      | c :: _ => if c = '?' ∨ c = '>' then 1 else 0
      | [] => 0
    let t2 := t1.drop optLen
    let k := countLeading isDigitSemi t2
    match consumeLit fin (t2.drop k) with
    | none => none
    | some _ => some (intro.length + optLen + k + fin.length)

/-- rawIntro is the raw CSI introducer `ESC [`. -/
def rawIntro : List Char := [escCh, '[']

/-- caretIntro is the tty caret-escaped CSI introducer `^[[`. -/
def caretIntro : List Char := ['^', '[', '[']

/-- matchMouseSgr embeds `\[<\d+(?:;\d+){2}[Mm]` after the given
introducer (MOUSE_SGR_RAW / MOUSE_SGR_CARET). -/
def matchMouseSgr (intro : List Char) (s : List Char) : Option Nat :=
  match consumeLit (intro ++ ['<']) s with
  | none => none
  | some t1 =>
    let d1 := countLeading isDigitCh t1
    if d1 = 0 then none else
    match consumeLit [';'] (t1.drop d1) with
    | none => none
    | some t2 =>
      let d2 := countLeading isDigitCh t2
      if d2 = 0 then none else
      match consumeLit [';'] (t2.drop d2) with
      | none => none
      | some t3 =>
        let d3 := countLeading isDigitCh t3
        if d3 = 0 then none else
        match t3.drop d3 with
        | c :: _ =>
          if c = 'M' ∨ c = 'm' then
            some (intro.length + 1 + d1 + 1 + d2 + 1 + d3 + 1)
          else none
        | [] => none

/-- matchMouseSeg embeds one `\d{1,3};\d{1,3};\d{1,3}M` segment of
MOUSE_SGR_PAYLOAD_RUN.  Each digit run is forced to the full run at
its position (the following character must be `;` or `M`, which are
not digits), so the segment fails if a run is empty or longer than 3. -/
def matchMouseSeg (s : List Char) : Option Nat :=
  let r1 := countLeading isDigitCh s
  if r1 = 0 ∨ 3 < r1 then none else
  match consumeLit [';'] (s.drop r1) with
  | none => none
  | some t2 =>
    let r2 := countLeading isDigitCh t2
    if r2 = 0 ∨ 3 < r2 then none else
    match consumeLit [';'] (t2.drop r2) with
    | none => none
    | some t3 =>
      let r3 := countLeading isDigitCh t3
      if r3 = 0 ∨ 3 < r3 then none else
      match t3.drop r3 with
      | 'M' :: _ => some (r1 + 1 + r2 + 1 + r3 + 1)
      | _ => none

/-- segRun counts the maximal run of consecutive payload segments and
the total number of characters they cover (the greedy `{2,}`). -/
def segRun : Nat → List Char → Nat × Nat
  | 0, _ => (0, 0)
  | fuel + 1, s =>
    match matchMouseSeg s with
    | none => (0, 0)
    | some len =>
      let (n, tot) := segRun fuel (s.drop len)
      (n + 1, len + tot)

/-- matchMouseRun embeds MOUSE_SGR_PAYLOAD_RUN,
`(?:\d{1,3};\d{1,3};\d{1,3}M){2,}`: at least two consecutive payload
segments. -/
def matchMouseRun (s : List Char) : Option Nat :=
  let (n, tot) := segRun s.length s
  if 2 ≤ n then some tot else none

/-- daGroups embeds the greedy `(?:;\d{1,4}){1,4}` of DA_PAYLOAD:
up to `cap` groups of a semicolon followed by a full digit run of
length 1 to 4, returning the group count and characters covered. -/
def daGroups : Nat → List Char → Nat × Nat
  | 0, _ => (0, 0)
  | cap + 1, s =>
    match s with
    | ';' :: t =>
      let r := countLeading isDigitCh t
      if r = 0 ∨ 4 < r then (0, 0)
      else
        let (g, len) := daGroups cap (t.drop r)
        (g + 1, 1 + r + len)
    | _ => (0, 0)

/-- matchDaBody embeds the body of DA_PAYLOAD after its `(^|\s)`
capture: `[?>]?\d{1,4}(?:;\d{1,4}){1,4}c(?=$|\s)`.  The digit runs are
forced (the next required character is `;` or `c`), and for any group
count below the greedy maximum the next character is `;`, never `c`,
so only the maximal group count can complete the match.  The trailing
lookahead is checked but not consumed. -/
def matchDaBody (s : List Char) : Option Nat :=
  let optLen : Nat := match s with
    | c :: _ => if c = '?' ∨ c = '>' then 1 else 0
    | [] => 0
  let t := s.drop optLen
  let r := countLeading isDigitCh t
  if r = 0 ∨ 4 < r then none else
  let (g, glen) := daGroups 4 (t.drop r)
  if g = 0 then none else
  match (t.drop r).drop glen with
  | 'c' :: rest =>
    match rest with
    | [] => some (optLen + r + glen + 1)
    | c :: _ => if isJsSpace c then some (optLen + r + glen + 1) else none
  | _ => none

/-- scanAux is a global regex replace as a single left-to-right scan:
at each position the step function either fires — returning the
replacement text to emit and the match length to skip — or the
current character is copied.  The `atStart` flag distinguishes
position 0 (for a `^` anchor) and is cleared after the first step.
The fuel is the input length; every step consumes at least one
character. -/
def scanAux (step : Bool → List Char → Option (List Char × Nat)) :
    Nat → Bool → List Char → List Char
  | 0, _, s => s
  | fuel + 1, atStart, s =>
    match s with
    | [] => []
    | c :: rest =>
      match step atStart (c :: rest) with
      | some (e, n) => e ++ scanAux step fuel false ((c :: rest).drop (max n 1))
      | none => c :: scanAux step fuel false rest

/-- patStep lifts a plain matcher to a scan step with empty
replacement (the source's `replace(pattern, "")`). -/
def patStep (m : List Char → Option Nat) (_ : Bool) (s : List Char) :
    Option (List Char × Nat) :=
  (m s).map (fun n => (([] : List Char), n))

/-- replaceAllM runs a global empty-replacement of the matcher over
the whole input. -/
def replaceAllM (m : List Char → Option Nat) (s : List Char) : List Char :=
  scanAux (patStep m) s.length false s

/-- daStep is the scan step of the DA_PAYLOAD replace with `$1`: the
`^` alternative of the leading capture fires only at position 0 and
captures nothing; the `\s` alternative captures the leading
whitespace character, which the replacement `$1` re-emits. -/
def daStep (atStart : Bool) (s : List Char) : Option (List Char × Nat) :=
  match (if atStart then matchDaBody s else none) with
  | some n => some (([] : List Char), n)
  | none =>
    match s with
    | [] => none
    | c :: rest =>
      match (if isJsSpace c then matchDaBody rest else none) with
      | some n => some ([c], 1 + n)
      | none => none

/-- replaceDaPayload is the DA_PAYLOAD cleanup applied after the nine
deletion patterns (the source line `sanitized.replace(DA_PAYLOAD, "$1")`). -/
def replaceDaPayload (s : List Char) : List Char :=
  scanAux daStep s.length true s

/-- sanitizePatterns is the PATTERNS array of the source, in order:
DA raw / caret, CPR raw / caret, mode-report raw / caret, SGR mouse
raw / caret, and the mouse payload-run heuristic. -/
def sanitizePatterns : List (List Char → Option Nat) :=
  [ matchCsiResp rawIntro ['c'],
    matchCsiResp caretIntro ['c'],
    matchCsiResp rawIntro ['R'],
    matchCsiResp caretIntro ['R'],
    matchCsiResp rawIntro ['$', 'y'],
    matchCsiResp caretIntro ['$', 'y'],
    matchMouseSgr rawIntro,
    matchMouseSgr caretIntro,
    matchMouseRun ]

/-- applyPatterns folds the nine global deletions over the input, in
source order. -/
def applyPatterns (s : List Char) : List Char :=
  sanitizePatterns.foldl (fun acc m => replaceAllM m acc) s

/-- hasCaretEsc decides whether the input contains the two-character
substring `^[` (the caret-escaped ESC marker). -/
def hasCaretEsc : List Char → Bool
  | '^' :: '[' :: _ => true
  | _ :: rest => hasCaretEsc rest
  | [] => false

/-- noTriggers is the fast-path test of the source: the input contains
no ESC byte, no `^[` marker and no semicolon. -/
def noTriggers (s : List Char) : Bool :=
  !(s.contains escCh || hasCaretEsc s || s.contains ';')

/-- sanitizeL is sanitizeTerminalScrollback on character lists: empty
input and trigger-free input are returned unchanged; otherwise the
nine deletion patterns run in order followed by the DA payload
cleanup. -/
def sanitizeL (s : List Char) : List Char :=
  if s = [] then s
  else if noTriggers s then s
  else replaceDaPayload (applyPatterns s)

/-- sanitizeTerminalScrollback is the exported sanitizer on strings. -/
def sanitizeTerminalScrollback (s : String) : String :=
  (sanitizeL s.toList).asString

/-- length_scanAux: a replacement scan never lengthens its input,
provided each step's emitted text plus the retained suffix fit in the
consumed text. -/
theorem length_scanAux (step : Bool → List Char → Option (List Char × Nat))
    (h : ∀ a s e n, step a s = some (e, n) →
      e.length + (s.drop (max n 1)).length ≤ s.length) :
    ∀ fuel a s, (scanAux step fuel a s).length ≤ s.length := by
  intro fuel
  induction fuel with
  | zero => intro a s; simp [scanAux]
  | succ k ih =>
    intro a s
    cases s with
    | nil => simp [scanAux]
    | cons c rest =>
      simp only [scanAux]
      cases hs : step a (c :: rest) with
      | some en =>
        obtain ⟨e, n⟩ := en
        have h1 := h a (c :: rest) e n hs
        have h2 := ih false ((c :: rest).drop (max n 1))
        simp only [List.length_append]
        omega
      | none =>
        simp only [List.length_cons]
        have := ih false rest
        omega

/-- length_replaceAllM: each global deletion pass never lengthens the
input. -/
theorem length_replaceAllM (m : List Char → Option Nat) (s : List Char) :
    (replaceAllM m s).length ≤ s.length := by
  refine length_scanAux (patStep m) ?_ s.length false s
  intro a t e n hs
  have he : e = [] := by
    simp only [patStep, Option.map_eq_some'] at hs
    obtain ⟨k, -, hk⟩ := hs
    exact (Prod.mk.injEq _ _ _ _ ▸ hk).1.symm ▸ rfl
  subst he
  simp [List.length_drop]

set_option maxHeartbeats 1600000 in
/-- length_replaceDaPayload: the DA-payload replacement pass never
lengthens the input (the replacement `$1` is a prefix of the match). -/
theorem length_replaceDaPayload (s : List Char) :
    (replaceDaPayload s).length ≤ s.length := by
  refine length_scanAux daStep ?_ s.length true s
  intro a t e n hs
  simp only [daStep] at hs
  cases h1 : (if a = true then matchDaBody t else none) with
  | some k =>
    simp only [h1] at hs
    cases hs
    simp [List.length_drop]
  | none =>
    simp only [h1] at hs
    cases t with
    | nil => simp at hs
    | cons c rest =>
      cases h2 : (if isJsSpace c = true then matchDaBody rest else none) with
      | some k =>
        simp only [h2] at hs
        cases hs
        have hmx : max (1 + k) 1 = 1 + k := by omega
        rw [hmx]
        simp only [List.length_cons, List.length_nil, List.length_drop]
        omega
      | none => simp only [h2] at hs; simp at hs

/-- length_applyPatterns: folding the nine deletion passes never
lengthens the input. -/
theorem length_applyPatterns (s : List Char) :
    (applyPatterns s).length ≤ s.length := by
  show ((sanitizePatterns.foldl (fun acc m => replaceAllM m acc) s)).length ≤ s.length
  generalize sanitizePatterns = ms
  induction ms generalizing s with
  | nil => simp
  | cons m ms ih =>
    simp only [List.foldl_cons]
    calc (ms.foldl (fun acc m => replaceAllM m acc) (replaceAllM m s)).length
        ≤ (replaceAllM m s).length := ih _
      _ ≤ s.length := length_replaceAllM m s

/-- length_sanitizeL: sanitizeL never lengthens its input. -/
theorem length_sanitizeL (s : List Char) :
    (sanitizeL s).length ≤ s.length := by
  unfold sanitizeL
  split
  · exact Nat.le_refl _
  · split
    · exact Nat.le_refl _
    · calc (replaceDaPayload (applyPatterns s)).length
          ≤ (applyPatterns s).length := length_replaceDaPayload _
        _ ≤ s.length := length_applyPatterns s

/-- asString_toList: rebuilding a string from its character list is
the identity. -/
theorem asString_toList (s : String) : s.toList.asString = s := rfl

/-- C10: sanitizeTerminalScrollback never lengthens its input — every
rewrite either deletes a matched artifact or replaces it by a captured
substring of itself, so the output length is at most the input
length. -/
theorem c10_sanitize_length_le (x : String) :
    (sanitizeTerminalScrollback x).length ≤ x.length := by
  show (sanitizeL x.toList).asString.length ≤ x.length
  have h1 : (sanitizeL x.toList).asString.length = (sanitizeL x.toList).length := rfl
  have h2 : x.length = x.toList.length := rfl
  rw [h1, h2]
  exact length_sanitizeL x.toList

/-- C7 counterexample: sanitizeTerminalScrollback is not idempotent.
On the input `ESC [ ESC [ 0 c 0 c` the first pass deletes the inner
`ESC [ 0 c` device-attribute response, splicing the surrounding
characters into a new `ESC [ 0 c` response, which only a second pass
deletes: one pass yields `ESC [ 0 c`, two passes yield the empty
string. -/
theorem c7_sanitize_not_idempotent_cex :
    sanitizeTerminalScrollback (sanitizeTerminalScrollback "\x1b[\x1b[0c0c") ≠
      sanitizeTerminalScrollback "\x1b[\x1b[0c0c" := by decide

/-- C7 (amended): sanitizeTerminalScrollback is idempotent on every
input whose sanitized output contains none of the trigger characters
(no ESC byte, no `^[` marker, no semicolon) — the second application
takes the fast path and returns its input unchanged.  Full idempotence
fails because deleting an artifact can splice the surrounding text
into a new artifact. -/
theorem c7_sanitize_idempotent_amended (s : String)
    (h : noTriggers (sanitizeTerminalScrollback s).toList = true) :
    sanitizeTerminalScrollback (sanitizeTerminalScrollback s) =
      sanitizeTerminalScrollback s := by
  have hd : noTriggers (sanitizeTerminalScrollback s).data = true := h
  have h1 : sanitizeL (sanitizeTerminalScrollback s).data =
      (sanitizeTerminalScrollback s).data := by
    simp [sanitizeL, hd]
  show (sanitizeL (sanitizeTerminalScrollback s).toList).asString =
    sanitizeTerminalScrollback s
  have h2 : (sanitizeTerminalScrollback s).toList =
      (sanitizeTerminalScrollback s).data := rfl
  rw [h2, h1]
  exact asString_toList _

/-- c7_sanitize_idempotent_amended_witness evaluates the amended claim
at a concrete trigger-free input. -/
theorem c7_sanitize_idempotent_amended_witness :
    sanitizeTerminalScrollback (sanitizeTerminalScrollback "hello") =
      sanitizeTerminalScrollback "hello" :=
  c7_sanitize_idempotent_amended "hello" (by decide)

/-! ## Session lifecycle state machine

Embedding of SessionLifecycle (session-lifecycle.ts).  The class is
driven by a single-threaded event loop; its `async` methods suspend at
each `await`, so the instance is modelled as a state machine whose
steps are the synchronous segments between awaits.  The phase field
records which continuation is pending: inside `doAttach` awaiting
`backend.sessionExists`, awaiting `backend.attachSession`, inside the
`onExit` handler awaiting `sessionExists`, or sleeping in the retry
backoff.  Backend responses arrive as events.  Ghost fields record the
number of `doAttach` invocations, the backoff delays slept, and the
`onStateChange` / `onError` callbacks emitted. -/

/-- SessState is the SessionState union of the source. -/
inductive SessState
  | disconnected
  | connecting
  | connected
  | reconnecting
  | failed
  | closed
deriving DecidableEq

/-- TmuxError is the classified backend error union of the source. -/
inductive TmuxError
  | NO_SERVER
  | NO_SESSION
  | SOCKET_MISSING
  | TOOL_NOT_FOUND
  | ATTACH_FAILED
deriving DecidableEq

/-- LcPhase identifies the pending asynchronous continuation of a
SessionLifecycle instance (its position between awaits). -/
inductive LcPhase
  | idle
  | attachAwaitExists
  | attachAwaitPty
  | exitAwaitExists
  | sleeping (delayMs : Nat)
deriving DecidableEq

/-- LcEmit is one callback emission (onStateChange or onError). -/
inductive LcEmit
  | stateChange (next prev : SessState)
  | errorEv (e : TmuxError)
deriving DecidableEq

/-- LState is the state of one SessionLifecycle instance plus ghost
observation fields. -/
structure LState where
  state : SessState
  retryCount : Nat
  hasPty : Bool
  disposed : Bool
  phase : LcPhase
  attempts : Nat
  sleeps : List Nat
  log : List LcEmit
deriving DecidableEq

/-- MAX_RETRIES is the retry ceiling constant of the source. -/
def MAX_RETRIES : Nat := 3

/-- RETRY_DELAYS_MS is the backoff schedule constant of the source. -/
def RETRY_DELAYS_MS : List Nat := [100, 500, 1000]

/-- lcTransition is the private `transition` method: update the state
and notify onStateChange, unless the state is unchanged. -/
def lcTransition (st : LState) (n : SessState) : LState :=
  if st.state = n then st
  else { st with state := n, log := st.log ++ [.stateChange n st.state] }

/-- lcStartDoAttach is the synchronous head of `doAttach`: transition
to connecting and suspend awaiting `backend.sessionExists`.  The
attempt counter is a ghost observation. -/
def lcStartDoAttach (st : LState) : LState :=
  let st1 := { st with attempts := st.attempts + 1 }
  let st2 := lcTransition st1 .connecting
  { st2 with phase := .attachAwaitExists }

/-- LEvent is an external stimulus to a SessionLifecycle instance: a
method call, a pty exit, a backend response resolving a pending await,
or the backoff timer firing. -/
inductive LEvent
  | ensureAttached
  | close
  | processExit
  | existsResult (b : Bool)
  | attachResult (ok : Bool) (e : TmuxError)
  | wake
  | retryCall
deriving DecidableEq

/-- lcStep runs one synchronous segment of SessionLifecycle in
response to an event.  Events that do not correspond to a pending
continuation are ignored. -/
def lcStep (st : LState) (ev : LEvent) : LState :=
  match ev with
  | .ensureAttached =>
    if st.disposed then st
    else if st.phase ≠ .idle then st
    else if st.state = .connected ∧ st.hasPty then st
    else lcStartDoAttach st
  | .close =>
    let st1 := { st with disposed := true }
    let st2 := lcTransition st1 .closed
    { st2 with hasPty := false }
  | .processExit =>
    if st.hasPty then
      let st1 := { st with hasPty := false }
      if st1.disposed ∨ st1.state = .closed then st1
      else { st1 with phase := .exitAwaitExists }
    else st
  | .existsResult b =>
    match st.phase with
    | .attachAwaitExists =>
      if b then { st with phase := .attachAwaitPty }
      else { (lcTransition st .closed) with phase := .idle }
    | .exitAwaitExists =>
      if b then
        if st.retryCount < MAX_RETRIES then
          let st1 := { st with retryCount := st.retryCount + 1 }
          let st2 := lcTransition st1 .reconnecting
          let d := (RETRY_DELAYS_MS.get? (st2.retryCount - 1)).getD 1000
          { st2 with phase := .sleeping d, sleeps := st2.sleeps ++ [d] }
        else
          let st1 := { st with log := st.log ++ [.errorEv .ATTACH_FAILED] }
          { (lcTransition st1 .failed) with phase := .idle }
      else { (lcTransition st .closed) with phase := .idle }
    | _ => st
  | .attachResult ok e =>
    match st.phase with
    | .attachAwaitPty =>
      if ok then
        let st1 := { st with hasPty := true, retryCount := 0 }
        { (lcTransition st1 .connected) with phase := .idle }
      else
        let st1 := { st with log := st.log ++ [.errorEv e] }
        { (lcTransition st1 .failed) with phase := .idle }
    | _ => st
  | .wake =>
    match st.phase with
    | .sleeping _ =>
      if st.disposed then { st with phase := .idle }
      else lcStartDoAttach { st with phase := .idle }
    | _ => st
  | .retryCall =>
    if st.disposed then st
    else if st.state ≠ .failed then st
    else
      let st1 := { st with retryCount := 0 }
      if st1.phase ≠ .idle then st1
      else if st1.state = .connected ∧ st1.hasPty then st1
      else lcStartDoAttach st1

/-- lcInit is a freshly constructed SessionLifecycle. -/
def lcInit : LState :=
  { state := .disconnected, retryCount := 0, hasPty := false,
    disposed := false, phase := .idle, attempts := 0, sleeps := [], log := [] }

/-- lcRun folds a list of events over a fresh instance. -/
def lcRun (evs : List LEvent) : LState := evs.foldl lcStep lcInit

/-- c2Events is the claim scenario for reconnection: attach succeeds,
the process exits unexpectedly, the backend still reports the session
as existing, and the re-attach throws ATTACH_FAILED. -/
def c2Events : List LEvent :=
  [.ensureAttached, .existsResult true, .attachResult true .NO_SERVER,
   .processExit, .existsResult true, .wake,
   .existsResult true, .attachResult false .ATTACH_FAILED]

/-- C2: evaluation of the embedded SessionLifecycle at the claim's
failing scenario (backend keeps the session alive but re-attach throws
ATTACH_FAILED).  The machine reaches `failed` after a single failed
reconnect attempt — retryCount 1, one backoff delay of 100ms, two
doAttach calls in total (initial attach plus one retry) — not after 3
failed attempts with delays 100/500/1000 as the claim states: `doAttach`
transitions straight to `failed` on its first error and nothing
schedules another attempt, while every successful attach resets
retryCount to 0, so the `Max retries exhausted` branch is unreachable.
The final conjunct shows the claim's retry() part does hold: an
explicit retry() resets the counter and reconnects when the backend
then succeeds. -/
theorem c2_failed_after_one_reconnect_attempt :
    (lcRun c2Events).state = .failed ∧
    (lcRun c2Events).retryCount = 1 ∧
    (lcRun c2Events).attempts = 2 ∧
    (lcRun c2Events).sleeps = [100] ∧
    (lcRun c2Events).log.count (.errorEv .ATTACH_FAILED) = 1 ∧
    (lcRun (c2Events ++
      [.retryCall, .existsResult true, .attachResult true .NO_SERVER])).state =
      .connected := by decide

/-- c4Events closes the lifecycle while its first doAttach is
suspended awaiting `backend.sessionExists`; the backend then reports
the session exists and the attach resolves successfully. -/
def c4Events : List LEvent :=
  [.ensureAttached, .close, .existsResult true, .attachResult true .NO_SERVER]

/-- C4: evaluation of the embedded SessionLifecycle at the claim's
failing scenario.  `close()` sets the disposed flag and transitions to
`closed`, but `doAttach` never re-checks the flag after its awaits: a
doAttach that was in flight when close() ran still installs the new
PTY and transitions `closed → connected`, so the closed state is not
terminal and a disposed instance is resurrected — contradicting the
claim that no pending asynchronous continuation can move the state out
of `closed` or install a new PTY. -/
theorem c4_close_not_terminal :
    (lcRun c4Events).disposed = true ∧
    (lcRun c4Events).state = .connected ∧
    (lcRun c4Events).hasPty = true := by decide

/-! ## Terminal manager: createOrAttach and write

Embedding of the TerminalManager registry paths that decide the two
claims about its public operations: the synchronous head of
`createOrAttach` (in-flight dedup, alive-session fast return, pending
registration) and `write` (session lookup and lifecycle gating).
Sessions, pending promises and lifecycles are the three maps of the
class, keyed by paneId; a pending promise is identified by a numeric
id so that "returns the same pending result" is expressible. -/

/-- TerminalSession is the registry record of the Manager (the fields
the embedded operations read or write). -/
structure TerminalSession where
  workspaceId : String
  isAlive : Bool
  wasRecovered : Bool
  isExpectedDetach : Bool
  scrollback : String
  lastActive : Nat
  cols : Int
  rows : Int
deriving DecidableEq

/-- SessionResult is the result record of createOrAttach. -/
structure SessionResult where
  isNew : Bool
  scrollback : String
  wasRecovered : Bool
deriving DecidableEq

/-- MgrState holds the three paneId-keyed maps of TerminalManager. -/
structure MgrState where
  sessions : List (String × TerminalSession)
  pendingSessions : List (String × Nat)
  lifecycles : List (String × LState)
deriving DecidableEq

/-- setKey updates an association list at a key. -/
def setKey {α : Type} (k : String) (v : α) (l : List (String × α)) :
    List (String × α) :=
  (k, v) :: l.filter (fun p => p.1 ≠ k)

/-- delKey removes a key from an association list. -/
def delKey {α : Type} (k : String) (l : List (String × α)) :
    List (String × α) :=
  l.filter (fun p => p.1 ≠ k)

/-- COAOutcome says how the head of createOrAttach returned: by
awaiting the in-flight promise of the same paneId, by returning the
alive session immediately, or by registering a fresh creation promise
and entering doCreateOrAttachPersistent. -/
inductive COAOutcome
  | sharedPending (promiseId : Nat)
  | returnExisting (r : SessionResult)
  | startCreation (promiseId : Nat)
deriving DecidableEq

/-- mgrResize is the `resize` operation: geometry validation (positive
integers), alive-session lookup, then lifecycle or pty resize plus
cols/rows/lastActive refresh. -/
def mgrResize (m : MgrState) (paneId : String) (cols rows : Int)
    (now : Nat) : MgrState :=
  if ¬(0 < cols ∧ 0 < rows) then m
  else
    match m.sessions.lookup paneId with
    | none => m
    | some s =>
      if ¬s.isAlive then m
      else
        let s1 := { s with cols := cols, rows := rows, lastActive := now }
        { m with sessions := setKey paneId s1 m.sessions }

/-- createOrAttachHead is the synchronous decision head of
createOrAttach (source lines up to the registration of the creation
promise): return the in-flight promise if one exists; else, if an
alive session exists, optionally retry a failed lifecycle, refresh
lastActive, resize if geometry was supplied, and return
`{isNew: false, scrollback, wasRecovered}`; else drop an
expected-detach corpse and register a fresh pending promise.  The
failed-lifecycle retry awaits the backend, summarized by the
`retryOutcome` oracle. -/
def createOrAttachHead (m : MgrState) (paneId : String)
    (geom : Option (Int × Int)) (now : Nat) (retryOutcome : Bool)
    (freshPromiseId : Nat) : COAOutcome × MgrState :=
  match m.pendingSessions.lookup paneId with
  | some pid => (.sharedPending pid, m)
  | none =>
    match m.sessions.lookup paneId with
    | some s =>
      if s.isAlive then
        let m1 :=
          match m.lifecycles.lookup paneId with
          | some lc =>
            if lc.state = SessState.failed then
              if retryOutcome then
                let lc1 := { lc with state := SessState.connected, hasPty := true, retryCount := 0 }
                { m with lifecycles := setKey paneId lc1 m.lifecycles }
              else m
            else m
          | none => m
        let m2 :=
          match m1.sessions.lookup paneId with
          | some s1 =>
            let s2 := { s1 with lastActive := now }
            { m1 with sessions := setKey paneId s2 m1.sessions }
          | none => m1
        let m3 :=
          match geom with
          | some (c, r) => mgrResize m2 paneId c r now
          | none => m2
        (.returnExisting
          { isNew := false, scrollback := s.scrollback,
            wasRecovered := s.wasRecovered }, m3)
      else
        let m1 :=
          if s.isExpectedDetach then
            { m with sessions := delKey paneId m.sessions }
          else m
        (.startCreation freshPromiseId,
          { m1 with pendingSessions :=
              setKey paneId freshPromiseId m1.pendingSessions })
    | none =>
      (.startCreation freshPromiseId,
        { m with pendingSessions :=
            setKey paneId freshPromiseId m.pendingSessions })

/-- C1: a createOrAttach call made while a previous call for the same
paneId is still pending returns exactly the stored pending promise and
changes nothing (no second creation is started); and with no pending
entry, if an alive session exists for the paneId the call returns
`{isNew := false, scrollback := session.scrollback, wasRecovered :=
session.wasRecovered}` without registering a creation (its outcome is
returnExisting, never startCreation, and pendingSessions is left
unchanged). -/
theorem c1_createOrAttach_dedup_and_alive_return
    (m : MgrState) (paneId : String) (geom : Option (Int × Int))
    (now : Nat) (retryOutcome : Bool) (freshPromiseId : Nat) :
    (∀ pid, m.pendingSessions.lookup paneId = some pid →
      createOrAttachHead m paneId geom now retryOutcome freshPromiseId =
        (.sharedPending pid, m)) ∧
    (∀ s, m.pendingSessions.lookup paneId = none →
      m.sessions.lookup paneId = some s → s.isAlive = true →
      (createOrAttachHead m paneId geom now retryOutcome freshPromiseId).1 =
        .returnExisting
          { isNew := false, scrollback := s.scrollback,
            wasRecovered := s.wasRecovered } ∧
      (createOrAttachHead m paneId geom now retryOutcome
          freshPromiseId).2.pendingSessions = m.pendingSessions) := by
  constructor
  · intro pid hp
    simp [createOrAttachHead, hp]
  · intro s hp hs halive
    constructor
    · simp [createOrAttachHead, hp, hs, halive]
    · simp only [createOrAttachHead, hp, hs, halive, if_true]
      repeat' split
      all_goals simp_all [mgrResize]
      all_goals (repeat' split)
      all_goals rfl

/-- c1PendingState has an in-flight creation promise (id 7) for pane
p1. -/
def c1PendingState : MgrState :=
  { sessions := [], pendingSessions := [("p1", 7)], lifecycles := [] }

/-- c1Sess is a concrete alive recovered session. -/
def c1Sess : TerminalSession :=
  { workspaceId := "w", isAlive := true, wasRecovered := true,
    isExpectedDetach := false, scrollback := "sb", lastActive := 0,
    cols := 80, rows := 24 }

/-- c1AliveState has an alive session for pane p1 and nothing
pending. -/
def c1AliveState : MgrState :=
  { sessions := [("p1", c1Sess)], pendingSessions := [], lifecycles := [] }

/-- c1_createOrAttach_dedup_and_alive_return_witness evaluates the C1
theorem at concrete manager states. -/
theorem c1_createOrAttach_dedup_and_alive_return_witness :
    createOrAttachHead c1PendingState "p1" none 5 false 9 =
      (.sharedPending 7, c1PendingState) ∧
    (createOrAttachHead c1AliveState "p1" none 5 false 9).1 =
      .returnExisting
        { isNew := false, scrollback := "sb", wasRecovered := true } :=
  ⟨(c1_createOrAttach_dedup_and_alive_return c1PendingState "p1" none 5 false 9).1
      7 (by decide),
   ((c1_createOrAttach_dedup_and_alive_return c1AliveState "p1" none 5 false 9).2
      c1Sess (by decide) (by decide) (by decide)).1⟩

/-- canWrite is the non-throwing writability guard of SessionLifecycle
called by TerminalManager.write.

Modelled from the spec: `canWrite()` is invoked in
TerminalManager.write but its definition is missing from the
SessionLifecycle source in this repository; per the spec it is
"exposed as a non-throwing guard the caller may check before writing",
true exactly when the lifecycle can accept a write — the same
condition SessionLifecycle.write itself enforces, state `connected`
with a live pty. -/
def canWrite (lc : LState) : Bool :=
  lc.state == SessState.connected && lc.hasPty

/-- WriteOutcome describes how TerminalManager.write returned. -/
inductive WriteOutcome
  | threwNotFound
  | dropped
  | threwState (s : SessState)
  | wrote
deriving DecidableEq

/-- writeModel is TerminalManager.write: throw if there is no alive
session; with a lifecycle, write when the guard allows it, silently
drop in the transient connecting/reconnecting states, and throw in any
other non-writable state; without a lifecycle write to the raw pty. -/
def writeModel (m : MgrState) (paneId : String) (now : Nat) :
    WriteOutcome × MgrState :=
  match m.sessions.lookup paneId with
  | none => (.threwNotFound, m)
  | some s =>
    if ¬s.isAlive then (.threwNotFound, m)
    else
      match m.lifecycles.lookup paneId with
      | some lc =>
        if canWrite lc then
          let s1 := { s with lastActive := now }
          (.wrote, { m with sessions := setKey paneId s1 m.sessions })
        else if lc.state = SessState.reconnecting ∨ lc.state = SessState.connecting then
          (.dropped, m)
        else (.threwState lc.state, m)
      | none =>
        let s1 := { s with lastActive := now }
        (.wrote, { m with sessions := setKey paneId s1 m.sessions })

/-- C3: TerminalManager.write throws session-not-found exactly when no
alive session exists for the paneId (no entry, or a dead entry); for
an alive session whose lifecycle is connecting or reconnecting the
write is dropped silently — it returns without throwing, without
writing, and without touching any state; and for an alive session
whose lifecycle is in any other state that cannot accept a write, it
throws naming that state. -/
theorem c3_write_gating (m : MgrState) (paneId : String) (now : Nat) :
    (m.sessions.lookup paneId = none →
      (writeModel m paneId now).1 = .threwNotFound) ∧
    (∀ s, m.sessions.lookup paneId = some s → s.isAlive = false →
      (writeModel m paneId now).1 = .threwNotFound) ∧
    (∀ s lc, m.sessions.lookup paneId = some s → s.isAlive = true →
      m.lifecycles.lookup paneId = some lc →
      (lc.state = SessState.connecting ∨ lc.state = SessState.reconnecting) →
      writeModel m paneId now = (.dropped, m)) ∧
    (∀ s lc, m.sessions.lookup paneId = some s → s.isAlive = true →
      m.lifecycles.lookup paneId = some lc →
      lc.state ≠ SessState.connecting → lc.state ≠ SessState.reconnecting →
      canWrite lc = false →
      (writeModel m paneId now).1 = .threwState lc.state) := by
  refine ⟨?_, ?_, ?_, ?_⟩
  · intro h
    simp [writeModel, h]
  · intro s hs hdead
    simp [writeModel, hs, hdead]
  · intro s lc hs halive hlc hst
    have hcw : canWrite lc = false := by
      rcases hst with h | h <;> simp [canWrite, h]
    rcases hst with h | h <;>
      simp [writeModel, hs, halive, hlc, hcw, h]
  · intro s lc hs halive hlc hnc hnr hcw
    simp [writeModel, hs, halive, hlc, hcw, hnc, hnr]

/-- c3LcConn is a reconnecting lifecycle instance. -/
def c3LcConn : LState :=
  { lcInit with state := SessState.reconnecting }

/-- c3LcFailed is a failed lifecycle instance. -/
def c3LcFailed : LState :=
  { lcInit with state := SessState.failed }

/-- c3DeadSess is a dead session record. -/
def c3DeadSess : TerminalSession :=
  { c1Sess with isAlive := false }

/-- c3EmptyState is a manager with no sessions at all. -/
def c3EmptyState : MgrState :=
  { sessions := [], pendingSessions := [], lifecycles := [] }

/-- c3DeadState is a manager with only a dead session for p1. -/
def c3DeadState : MgrState :=
  { sessions := [("p1", c3DeadSess)], pendingSessions := [], lifecycles := [] }

/-- c3ConnState is a manager with an alive session for p1 whose
lifecycle is reconnecting. -/
def c3ConnState : MgrState :=
  { sessions := [("p1", c1Sess)], pendingSessions := [],
    lifecycles := [("p1", c3LcConn)] }

/-- c3FailedState is a manager with an alive session for p1 whose
lifecycle is failed. -/
def c3FailedState : MgrState :=
  { sessions := [("p1", c1Sess)], pendingSessions := [],
    lifecycles := [("p1", c3LcFailed)] }

/-- c3_write_gating_witness evaluates the C3 theorem at concrete
manager states: missing session, dead session, reconnecting lifecycle
(dropped), and failed lifecycle (throws). -/
theorem c3_write_gating_witness :
    (writeModel c3EmptyState "p1" 5).1 = .threwNotFound ∧
    (writeModel c3DeadState "p1" 5).1 = .threwNotFound ∧
    writeModel c3ConnState "p1" 5 = (.dropped, c3ConnState) ∧
    (writeModel c3FailedState "p1" 5).1 = .threwState SessState.failed :=
  ⟨(c3_write_gating c3EmptyState "p1" 5).1 (by decide),
   (c3_write_gating c3DeadState "p1" 5).2.1 c3DeadSess (by decide) (by decide),
   (c3_write_gating c3ConnState "p1" 5).2.2.1 c1Sess c3LcConn (by decide)
     (by decide) (by decide) (Or.inr (by decide)),
   (c3_write_gating c3FailedState "p1" 5).2.2.2 c1Sess c3LcFailed (by decide)
     (by decide) (by decide) (by decide) (by decide) (by decide)⟩

/-! ## Attach scheduler

Embedding of scheduleTerminalAttach / pump.  Tasks are identified by
a numeric id standing for JavaScript object identity (the source
compares task object references; here the ids supplied to schedule
events play that role).  The ghost `started` log records every task
whose run callback pump has invoked. -/

/-- ATask is the queued unit of work of the scheduler. -/
structure ATask where
  tid : Nat
  paneId : String
  priority : Int
  enqueuedAt : Nat
  canceled : Bool
deriving DecidableEq

/-- MAX_CONCURRENT_ATTACHES is the concurrency cap constant of the
source. -/
def MAX_CONCURRENT_ATTACHES : Nat := 3

/-- Sched is the module-level scheduler state: the in-flight counter,
the queue, and the paneId-to-current-task map, plus ghost `running`
and `started` observation logs. -/
structure Sched where
  inFlight : Nat
  queue : List ATask
  pendingByPaneId : List (String × Nat)
  running : List ATask
  started : List ATask
deriving DecidableEq

/-- taskKeyLt is the strict sort order of the source comparator
`a.priority - b.priority || a.enqueuedAt - b.enqueuedAt`. -/
def taskKeyLt (a b : ATask) : Bool :=
  a.priority < b.priority ||
    (a.priority == b.priority && a.enqueuedAt < b.enqueuedAt)

/-- insertTask inserts a task after every strictly smaller key,
keeping equal keys in their original order. -/
def insertTask (x : ATask) : List ATask → List ATask
  | [] => [x]
  | y :: rest => if taskKeyLt y x then y :: insertTask x rest else x :: y :: rest

/-- sortTasks is the stable sort the queue undergoes before each pop
(JavaScript Array.sort is stable). -/
def sortTasks (l : List ATask) : List ATask := l.foldr insertTask []

/-- pumpAux is the pump loop: while the in-flight count is below the
cap and the queue is non-empty, sort, pop the first task, skip it if
canceled or superseded (no longer the mapped task for its pane), else
start it.  Each iteration removes one queue element, so fuel equal to
the queue length never runs out before the loop conditions exit. -/
def pumpAux : Nat → Sched → Sched
  | 0, s => s
  | fuel + 1, s =>
    if s.inFlight < MAX_CONCURRENT_ATTACHES ∧ s.queue ≠ [] then
      match sortTasks s.queue with
      | [] => s
      | t :: rest =>
        if t.canceled then pumpAux fuel { s with queue := rest }
        else if s.pendingByPaneId.lookup t.paneId ≠ some t.tid then
          pumpAux fuel { s with queue := rest }
        else
          let s1 := { s with queue := rest, inFlight := s.inFlight + 1, running := s.running ++ [t], started := s.started ++ [t] }
          pumpAux fuel s1
    else s

/-- pump runs the loop with sufficient fuel. -/
def pump (s : Sched) : Sched := pumpAux s.queue.length s

/-- markCanceled sets the canceled flag of the task with the given id
(the source mutates the shared task object; queue copies see it). -/
def markCanceled (tid : Nat) (l : List ATask) : List ATask :=
  l.map (fun t => if t.tid = tid then { t with canceled := true } else t)

/-- scheduleCore is scheduleTerminalAttach up to (not including) the
pump call: cancel and unmap any existing pending task for the pane,
then create, map and enqueue the new task. -/
def scheduleCore (s : Sched) (pane : String) (prio : Int) (now : Nat)
    (freshId : Nat) : Sched :=
  let s1 :=
    match s.pendingByPaneId.lookup pane with
    | some oldId =>
      { s with queue := markCanceled oldId s.queue, pendingByPaneId := delKey pane s.pendingByPaneId }
    | none => s
  let t : ATask := { tid := freshId, paneId := pane, priority := prio, enqueuedAt := now, canceled := false }
  { s1 with pendingByPaneId := setKey pane freshId s1.pendingByPaneId, queue := s1.queue ++ [t] }

/-- scheduleTerminalAttach is the exported schedule operation. -/
def scheduleTerminalAttach (s : Sched) (pane : String) (prio : Int)
    (now : Nat) (freshId : Nat) : Sched :=
  pump (scheduleCore s pane prio now freshId)

/-- completeTask is the done callback of a running task: clear the
pane mapping if this task still owns it, decrement the in-flight
count (floored at 0, as `Math.max(0, inFlight - 1)`), and pump. -/
def completeTask (s : Sched) (tid : Nat) : Sched :=
  match s.running.find? (fun t => t.tid == tid) with
  | none => s
  | some t =>
    let pend1 := if s.pendingByPaneId.lookup t.paneId = some tid then delKey t.paneId s.pendingByPaneId else s.pendingByPaneId
    pump { s with running := s.running.filter (fun u => u.tid ≠ tid), pendingByPaneId := pend1, inFlight := s.inFlight - 1 }

/-- cancelTask is the cancel function returned by
scheduleTerminalAttach: mark the task canceled and clear the pane
mapping if the task still owns it. -/
def cancelTask (s : Sched) (tid : Nat) (pane : String) : Sched :=
  let s1 := { s with queue := markCanceled tid s.queue, running := markCanceled tid s.running }
  if s1.pendingByPaneId.lookup pane = some tid then
    { s1 with pendingByPaneId := delKey pane s1.pendingByPaneId }
  else s1

/-- SchedEvent is one external stimulus to the scheduler. -/
inductive SchedEvent
  | sched (pane : String) (prio : Int) (now : Nat) (tid : Nat)
  | complete (tid : Nat)
  | cancel (tid : Nat) (pane : String)
deriving DecidableEq

/-- schedStep dispatches one scheduler event. -/
def schedStep (s : Sched) : SchedEvent → Sched
  | .sched pane prio now tid => scheduleTerminalAttach s pane prio now tid
  | .complete tid => completeTask s tid
  | .cancel tid pane => cancelTask s tid pane

/-- schedInit is the initial module state. -/
def schedInit : Sched :=
  { inFlight := 0, queue := [], pendingByPaneId := [], running := [], started := [] }

/-- schedRun folds a list of scheduler events over the initial
state. -/
def schedRun (evts : List SchedEvent) : Sched := evts.foldl schedStep schedInit

/-- pumpAux_inFlight_le: the pump loop never pushes the in-flight
count above the cap (it only increments below the cap). -/
theorem pumpAux_inFlight_le :
    ∀ fuel s, s.inFlight ≤ MAX_CONCURRENT_ATTACHES →
      (pumpAux fuel s).inFlight ≤ MAX_CONCURRENT_ATTACHES := by
  intro fuel
  induction fuel with
  | zero => intro s h; simpa [pumpAux] using h
  | succ k ih =>
    intro s h
    rw [pumpAux]
    split
    · rename_i hcond
      split
      · exact h
      · rename_i t rest hsort
        split
        · exact ih _ h
        · split
          · exact ih _ h
          · refine ih _ ?_
            have : s.inFlight < MAX_CONCURRENT_ATTACHES := hcond.1
            simpa using this
    · exact h

/-- scheduleCore_inFlight: scheduling itself does not change the
in-flight count. -/
theorem scheduleCore_inFlight (s : Sched) (pane : String) (prio : Int)
    (now : Nat) (freshId : Nat) :
    (scheduleCore s pane prio now freshId).inFlight = s.inFlight := by
  unfold scheduleCore
  split <;> rfl

/-- schedStep_inFlight_le: every scheduler event preserves the cap
invariant. -/
theorem schedStep_inFlight_le (s : Sched) (ev : SchedEvent)
    (h : s.inFlight ≤ MAX_CONCURRENT_ATTACHES) :
    (schedStep s ev).inFlight ≤ MAX_CONCURRENT_ATTACHES := by
  cases ev with
  | sched pane prio now tid =>
    show (pump (scheduleCore s pane prio now tid)).inFlight ≤ _
    refine pumpAux_inFlight_le _ _ ?_
    rw [scheduleCore_inFlight]
    exact h
  | complete tid =>
    show (completeTask s tid).inFlight ≤ _
    unfold completeTask
    split
    · exact h
    · refine pumpAux_inFlight_le _ _ ?_
      simp only []
      omega
  | cancel tid pane =>
    show (cancelTask s tid pane).inFlight ≤ _
    simp only [cancelTask]
    split <;> exact h

/-- C5: for every sequence of schedule, completion and cancellation
events, the number of concurrently running tasks (the inFlight
counter) never exceeds the fixed cap of 3; in particular any number of
tasks enqueued simultaneously at priority 0 leaves at most 3 running
at any instant. -/
theorem c5_inflight_never_exceeds_cap (evts : List SchedEvent) :
    (schedRun evts).inFlight ≤ 3 := by
  have hmax : MAX_CONCURRENT_ATTACHES = 3 := rfl
  rw [← hmax]
  show (evts.foldl schedStep schedInit).inFlight ≤ MAX_CONCURRENT_ATTACHES
  have hinit : schedInit.inFlight ≤ MAX_CONCURRENT_ATTACHES := by decide
  generalize schedInit = s0 at hinit ⊢
  induction evts generalizing s0 with
  | nil => simpa using hinit
  | cons ev rest ih =>
    simp only [List.foldl_cons]
    exact ih _ (schedStep_inFlight_le s0 ev hinit)

/-- mem_markCanceled: a task that markCanceled targeted carries the
canceled flag in the resulting list. -/
theorem mem_markCanceled {t : ATask} {tid : Nat} {l : List ATask}
    (hm : t ∈ markCanceled tid l) (ht : t.tid = tid) :
    t.canceled = true := by
  unfold markCanceled at hm
  rcases List.mem_map.mp hm with ⟨u, hu, he⟩
  by_cases h : u.tid = tid
  · rw [if_pos h] at he
    rw [← he]
  · rw [if_neg h] at he
    rw [← he] at ht
    exact absurd ht h

/-- lookup_setKey: setKey makes the key map to the new value. -/
theorem lookup_setKey {α : Type} (k : String) (v : α) (l : List (String × α)) :
    (setKey k v l).lookup k = some v := by
  simp [setKey, List.lookup]

/-- pumpAux_started_sound: pump only ever starts a task that is not
canceled and is still the current mapped task for its pane — every
task newly appearing in the started log satisfied both guards against
the pre-pump state (pump never modifies the pane map). -/
theorem pumpAux_started_sound :
    ∀ fuel st t, t ∈ (pumpAux fuel st).started →
      t ∈ st.started ∨
        (t.canceled = false ∧ st.pendingByPaneId.lookup t.paneId = some t.tid) := by
  intro fuel
  induction fuel with
  | zero => intro st t h; left; simpa [pumpAux] using h
  | succ k ih =>
    intro st t h
    rw [pumpAux] at h
    by_cases hcond : st.inFlight < MAX_CONCURRENT_ATTACHES ∧ st.queue ≠ []
    · rw [if_pos hcond] at h
      cases hsort : sortTasks st.queue with
      | nil => rw [hsort] at h; left; exact h
      | cons t0 rest =>
        rw [hsort] at h
        dsimp only at h
        by_cases hc : t0.canceled = true
        · rw [if_pos hc] at h
          rcases ih _ t h with h1 | h2
          · left; exact h1
          · right; exact h2
        · rw [if_neg hc] at h
          by_cases hp : st.pendingByPaneId.lookup t0.paneId ≠ some t0.tid
          · rw [if_pos hp] at h
            rcases ih _ t h with h1 | h2
            · left; exact h1
            · right; exact h2
          · rw [if_neg hp] at h
            rcases ih _ t h with h1 | h2
            · rcases List.mem_append.mp h1 with ha | hb
              · left; exact ha
              · have ht0 : t = t0 := by simpa using hb
                subst ht0
                right
                refine ⟨?_, not_not.mp hp⟩
                simpa using hc
            · right; exact h2
    · rw [if_neg hcond] at h; left; exact h

/-- C6: (a) scheduling a new task for a paneId that already has a
pending task marks the older task canceled everywhere it still sits
in the queue and repoints the pane mapping at the new task before
enqueuing; and (b) pump never invokes the run callback of a task that
is canceled or that is no longer the current mapped task for its
paneId — together, of several tasks scheduled for the same paneId
while earlier ones are still pending, only the most recently scheduled
one can ever run. -/
theorem c6_last_schedule_wins (s : Sched) (pane : String) (prio : Int)
    (now : Nat) (freshId oldId : Nat)
    (hold : s.pendingByPaneId.lookup pane = some oldId)
    (hne : oldId ≠ freshId) :
    (∀ t ∈ (scheduleCore s pane prio now freshId).queue,
        t.tid = oldId → t.canceled = true) ∧
    (scheduleCore s pane prio now freshId).pendingByPaneId.lookup pane =
      some freshId ∧
    (∀ fuel st t, t ∈ (pumpAux fuel st).started →
      t ∈ st.started ∨
        (t.canceled = false ∧
          st.pendingByPaneId.lookup t.paneId = some t.tid)) := by
  refine ⟨?_, ?_, ?_⟩
  · intro t ht htid
    simp only [scheduleCore, hold] at ht
    rcases List.mem_append.mp ht with hm | hn
    · exact mem_markCanceled hm htid
    · have hteq : t = { tid := freshId, paneId := pane, priority := prio, enqueuedAt := now, canceled := false } := by
        simpa using hn
      rw [hteq] at htid
      exact absurd htid.symm hne
  · simp only [scheduleCore, hold]
    exact lookup_setKey pane freshId _
  · exact pumpAux_started_sound

/-- c6OldTask is a pending task (id 1) for pane p1. -/
def c6OldTask : ATask :=
  { tid := 1, paneId := "p1", priority := 0, enqueuedAt := 0, canceled := false }

/-- c6State is a scheduler state in which c6OldTask is queued and
mapped for pane p1 (the cap is saturated so it has not started). -/
def c6State : Sched :=
  { inFlight := 3, queue := [c6OldTask], pendingByPaneId := [("p1", 1)], running := [], started := [] }

/-- c6StartedState is a state whose started log already holds
c6OldTask, used to evaluate the pump-soundness conjunct. -/
def c6StartedState : Sched :=
  { inFlight := 0, queue := [], pendingByPaneId := [], running := [], started := [c6OldTask] }

/-- c6_last_schedule_wins_witness evaluates the C6 theorem at a
concrete state: rescheduling pane p1 with fresh id 2 cancels the
queued copy of task 1 and maps p1 to 2, and the pump-soundness
conjunct evaluated on a pumped state yields its disjunction. -/
theorem c6_last_schedule_wins_witness :
    ({ c6OldTask with canceled := true } : ATask).canceled = true ∧
    (scheduleCore c6State "p1" 0 5 2).pendingByPaneId.lookup "p1" = some 2 ∧
    (c6OldTask ∈ c6StartedState.started ∨
      (c6OldTask.canceled = false ∧
        c6StartedState.pendingByPaneId.lookup c6OldTask.paneId =
          some c6OldTask.tid)) :=
  ⟨(c6_last_schedule_wins c6State "p1" 0 5 2 1 (by decide) (by decide)).1
      ({ c6OldTask with canceled := true }) (by decide) (by decide),
   (c6_last_schedule_wins c6State "p1" 0 5 2 1 (by decide) (by decide)).2.1,
   (c6_last_schedule_wins c6State "p1" 0 5 2 1 (by decide) (by decide)).2.2
      0 c6StartedState c6OldTask (by decide)⟩

/-! ## Kill escalation

Embedding of TerminalManager.killSessionWithTimeout and
killByWorkspaceId.  A session process is summarized by when it would
exit after receiving each signal; the manager exit event (the
confirmation killSessionWithTimeout listens for) fires at the moment
the process dies.  The promise resolution is computed by replaying the
timer chain of the source: SIGTERM at time 0; if no confirmed exit
before 2000ms and the session is still alive, SIGKILL at 2000ms; if
still unresolved at 2500ms, force cleanup resolving false (removing
the registry entry if the session is somehow still alive). -/

/-- ProcBehavior describes how the underlying process responds to the
two signals: the delay after receipt at which it exits, or none if it
ignores the signal. -/
structure ProcBehavior where
  exitAfterSigterm : Option Nat
  exitAfterSigkill : Option Nat
deriving DecidableEq

/-- KillOutcome is the resolution of one killSessionWithTimeout call:
the boolean the promise resolves with, the time of resolution in
milliseconds from the SIGTERM send, and whether the force-cleanup path
removed the registry entry. -/
structure KillOutcome where
  result : Bool
  timeMs : Nat
  forcedCleanup : Bool
deriving DecidableEq

/-- SIGTERM_WAIT_MS is the 2000ms escalation timer of the source. -/
def SIGTERM_WAIT_MS : Nat := 2000

/-- SIGKILL_WAIT_MS is the extra 500ms force-cleanup timer of the
source. -/
def SIGKILL_WAIT_MS : Nat := 500

/-- minOpt takes the earlier of two optional instants. -/
def minOpt : Option Nat → Option Nat → Option Nat
  | none, b => b
  | a, none => a
  | some x, some y => some (min x y)

/-- killSessionWithTimeoutSim replays killSessionWithTimeout for one
session: an already-dead session resolves true immediately (history
finalized, registry entry removed as cleanup, not force); otherwise
SIGTERM is sent at 0 and the first of confirmed-exit /
SIGKILL-escalation / force-cleanup to fire resolves the promise. -/
def killSessionWithTimeoutSim (isAlive : Bool) (b : ProcBehavior) : KillOutcome :=
  if ¬isAlive then { result := true, timeMs := 0, forcedCleanup := false }
  else
    match b.exitAfterSigterm with
    | some t =>
      if t < SIGTERM_WAIT_MS then { result := true, timeMs := t, forcedCleanup := false }
      else
        match minOpt (some t) (b.exitAfterSigkill.map (fun k => SIGTERM_WAIT_MS + k)) with
        | some u =>
          if u < SIGTERM_WAIT_MS + SIGKILL_WAIT_MS then
            { result := true, timeMs := u, forcedCleanup := false }
          else
            { result := false, timeMs := SIGTERM_WAIT_MS + SIGKILL_WAIT_MS, forcedCleanup := true }
        | none =>
          { result := false, timeMs := SIGTERM_WAIT_MS + SIGKILL_WAIT_MS, forcedCleanup := true }
    | none =>
      match b.exitAfterSigkill.map (fun k => SIGTERM_WAIT_MS + k) with
      | some u =>
        if u < SIGTERM_WAIT_MS + SIGKILL_WAIT_MS then
          { result := true, timeMs := u, forcedCleanup := false }
        else
          { result := false, timeMs := SIGTERM_WAIT_MS + SIGKILL_WAIT_MS, forcedCleanup := true }
      | none =>
        { result := false, timeMs := SIGTERM_WAIT_MS + SIGKILL_WAIT_MS, forcedCleanup := true }

/-- killByWorkspaceIdSim replays killByWorkspaceId over the matching
sessions: each is killed with the escalation in parallel, the call
returns when all per-session promises have resolved, counting
resolutions true as killed and false as failed. -/
def killByWorkspaceIdSim (sessions : List (Bool × ProcBehavior)) :
    Nat × Nat × Nat :=
  let outcomes := sessions.map (fun p => killSessionWithTimeoutSim p.1 p.2)
  (outcomes.countP (fun o => o.result),
   outcomes.countP (fun o => !o.result),
   (outcomes.map (fun o => o.timeMs)).foldr max 0)

/-- killSim_time_le: every per-session kill resolves by 2500ms. -/
theorem killSim_time_le (isAlive : Bool) (b : ProcBehavior) :
    (killSessionWithTimeoutSim isAlive b).timeMs ≤ 2500 := by
  unfold killSessionWithTimeoutSim
  repeat' split
  all_goals simp_all [SIGTERM_WAIT_MS, SIGKILL_WAIT_MS, minOpt]
  all_goals omega

/-- C8: killSessionWithTimeout follows the two-stage escalation and is
bounded.  (1) Every per-session kill resolves within 2500ms whatever
the process does.  (2) A process that ignores SIGTERM but dies k ms
after the 2000ms SIGKILL (k < 500) is reported as killed at 2000+k ms,
with no forced cleanup.  (3) A process still alive after both signals
resolves as failed at exactly 2500ms with its registry entry
force-removed.  (4) killByWorkspaceId therefore always completes: the
parallel batch finishes by 2500ms for every session list. -/
theorem c8_kill_escalation_bounded :
    (∀ isAlive b, (killSessionWithTimeoutSim isAlive b).timeMs ≤ 2500) ∧
    (∀ b k, b.exitAfterSigterm = none → b.exitAfterSigkill = some k → k < 500 →
      killSessionWithTimeoutSim true b =
        { result := true, timeMs := 2000 + k, forcedCleanup := false }) ∧
    (∀ b, b.exitAfterSigterm = none → b.exitAfterSigkill = none →
      killSessionWithTimeoutSim true b =
        { result := false, timeMs := 2500, forcedCleanup := true }) ∧
    (∀ sessions, (killByWorkspaceIdSim sessions).2.2 ≤ 2500) := by
  refine ⟨killSim_time_le, ?_, ?_, ?_⟩
  · intro b k ht hk hlt
    have hcond : 2000 + k < 2500 := by omega
    simp [killSessionWithTimeoutSim, ht, hk, SIGTERM_WAIT_MS, SIGKILL_WAIT_MS, hcond]
  · intro b ht hk
    simp [killSessionWithTimeoutSim, ht, hk, SIGTERM_WAIT_MS, SIGKILL_WAIT_MS]
  · intro sessions
    unfold killByWorkspaceIdSim
    dsimp only
    have hall : ∀ x ∈ ((sessions.map (fun p => killSessionWithTimeoutSim p.1 p.2)).map (fun o => o.timeMs)), x ≤ 2500 := by
      intro x hx
      rcases List.mem_map.mp hx with ⟨o, ho, rfl⟩
      rcases List.mem_map.mp ho with ⟨p, hp, rfl⟩
      exact killSim_time_le p.1 p.2
    generalize ((sessions.map (fun p => killSessionWithTimeoutSim p.1 p.2)).map (fun o => o.timeMs)) = l at hall ⊢
    induction l with
    | nil => simp
    | cons a rest ih =>
      simp only [List.foldr_cons]
      have h1 := hall a (by simp)
      have h2 := ih (fun x hx => hall x (List.mem_cons_of_mem a hx))
      exact Nat.max_le.mpr ⟨h1, h2⟩

/-- c8IgnoresTerm is a process that ignores SIGTERM and dies 100ms
after SIGKILL. -/
def c8IgnoresTerm : ProcBehavior :=
  { exitAfterSigterm := none, exitAfterSigkill := some 100 }

/-- c8Immortal is a process that survives both signals. -/
def c8Immortal : ProcBehavior :=
  { exitAfterSigterm := none, exitAfterSigkill := none }

/-- c8_kill_escalation_bounded_witness evaluates the C8 theorem at
concrete behaviors: a SIGTERM-ignoring process is reported killed at
2100ms, an unkillable one fails forced at 2500ms, and a concrete
workspace batch finishes by 2500ms. -/
theorem c8_kill_escalation_bounded_witness :
    (killSessionWithTimeoutSim true c8IgnoresTerm).timeMs ≤ 2500 ∧
    killSessionWithTimeoutSim true c8IgnoresTerm =
      { result := true, timeMs := 2100, forcedCleanup := false } ∧
    killSessionWithTimeoutSim true c8Immortal =
      { result := false, timeMs := 2500, forcedCleanup := true } ∧
    (killByWorkspaceIdSim [(true, c8IgnoresTerm), (true, c8Immortal)]).2.2 ≤ 2500 :=
  ⟨c8_kill_escalation_bounded.1 true c8IgnoresTerm,
   c8_kill_escalation_bounded.2.1 c8IgnoresTerm 100 (by decide) (by decide) (by decide),
   c8_kill_escalation_bounded.2.2.1 c8Immortal (by decide) (by decide),
   c8_kill_escalation_bounded.2.2.2 [(true, c8IgnoresTerm), (true, c8Immortal)]⟩

/-! ## Exit handler and shell-crash fallback

Embedding of TerminalManager.setupExitHandler together with the shell
selection of createSession (session.ts).  The shell constants and the
crash threshold live in env.ts, represented here by an environment
record the theorems quantify over. -/

/-- TermEnv carries the env.ts constants the exit handler and
createSession consult. -/
structure TermEnv where
  fallbackShell : String
  defaultShell : String
  crashThresholdMs : Nat
deriving DecidableEq

/-- ExitInput is the data the exit handler reads when a session's
process exits: session flags, timing, accumulated scrollback, the
exit code, and whether the fallback doCreateSession call would
succeed. -/
structure ExitInput where
  isPersistentBackend : Bool
  isExpectedDetach : Bool
  usedFallback : Bool
  startTime : Nat
  scrollback : String
  now : Nat
  exitCode : Int
  fallbackSpawnSucceeds : Bool
deriving DecidableEq

/-- RespawnParams is what the fallback path passes to doCreateSession:
the dead session's scrollback (`session.scrollback || null`) and the
useFallbackShell flag. -/
structure RespawnParams where
  existingScrollback : Option String
  useFallbackShell : Bool
deriving DecidableEq

/-- ExitAction is the externally observable outcome of one run of the
exit handler. -/
inductive ExitAction
  | expectedDetachNoop
  | persistentExit
  | fallbackRespawn (p : RespawnParams)
  | fallbackFailedThenExit (p : RespawnParams)
  | normalExit
deriving DecidableEq

/-- emitsExitEvent says whether the handler run surfaced an exit event
to the caller. -/
def emitsExitEvent : ExitAction → Bool
  | .expectedDetachNoop => false
  | .persistentExit => true
  | .fallbackRespawn _ => false
  | .fallbackFailedThenExit _ => true
  | .normalExit => true

/-- setupExitHandlerStep is the branch structure of the onExit
callback installed by setupExitHandler: expected detach returns
silently; a persistent session finalizes history and emits exit; a
non-persistent session that exited non-zero within the crash threshold
without having used the fallback shell is respawned with the fallback
shell and the preserved scrollback (emitting exit only if that respawn
itself fails); every other exit finalizes history and emits exit. -/
def setupExitHandlerStep (env : TermEnv) (i : ExitInput) : ExitAction :=
  if i.isPersistentBackend ∧ i.isExpectedDetach then .expectedDetachNoop
  else if i.isPersistentBackend then .persistentExit
  else
    let sessionDuration := i.now - i.startTime
    let crashedQuickly := sessionDuration < env.crashThresholdMs ∧ i.exitCode ≠ 0
    if crashedQuickly ∧ ¬i.usedFallback then
      let p : RespawnParams :=
        { existingScrollback := if i.scrollback = "" then none else some i.scrollback,
          useFallbackShell := true }
      if i.fallbackSpawnSucceeds then .fallbackRespawn p
      else .fallbackFailedThenExit p
    else .normalExit

/-- sessionShell is the shell selection of createSession:
`useFallbackShell ? FALLBACK_SHELL : getDefaultShell()`; the spawned
session records `usedFallback := useFallbackShell`. -/
def sessionShell (env : TermEnv) (useFallbackShell : Bool) : String :=
  if useFallbackShell then env.fallbackShell else env.defaultShell

/-- C9: (a) a non-persistent session that exits with a non-zero code
within the crash threshold, not having used the fallback shell yet,
and whose fallback spawn succeeds, is respawned with useFallbackShell
(so createSession picks the fixed fallback shell) and with the
session's accumulated scrollback passed as the new session's existing
scrollback, and no exit event reaches the caller; (b) in every exit
with a zero exit code, or at or past the threshold, or with the
fallback already used, no fallback respawn occurs. -/
theorem c9_shell_crash_fallback (env : TermEnv) (i : ExitInput) :
    (i.isPersistentBackend = false → i.usedFallback = false →
      i.now - i.startTime < env.crashThresholdMs → i.exitCode ≠ 0 →
      i.fallbackSpawnSucceeds = true →
      setupExitHandlerStep env i =
        .fallbackRespawn
          { existingScrollback :=
              if i.scrollback = "" then none else some i.scrollback,
            useFallbackShell := true } ∧
      sessionShell env true = env.fallbackShell ∧
      emitsExitEvent (setupExitHandlerStep env i) = false) ∧
    ((i.exitCode = 0 ∨ env.crashThresholdMs ≤ i.now - i.startTime ∨
        i.usedFallback = true) →
      ∀ p, setupExitHandlerStep env i ≠ .fallbackRespawn p ∧
           setupExitHandlerStep env i ≠ .fallbackFailedThenExit p) := by
  constructor
  · intro hnp hnf hfast hcode hok
    have hstep : setupExitHandlerStep env i =
        .fallbackRespawn
          { existingScrollback :=
              if i.scrollback = "" then none else some i.scrollback,
            useFallbackShell := true } := by
      simp [setupExitHandlerStep, hnp, hnf, hfast, hcode, hok]
    refine ⟨hstep, rfl, ?_⟩
    rw [hstep]
    rfl
  · intro hother p
    unfold setupExitHandlerStep
    rcases hother with h0 | hslow | hused
    · split
      · exact ⟨by simp, by simp⟩
      · split
        · exact ⟨by simp, by simp⟩
        · dsimp only
          split
          · rename_i hq
            exact absurd hq.1.2 (by simpa using h0)
          · exact ⟨by simp, by simp⟩
    · split
      · exact ⟨by simp, by simp⟩
      · split
        · exact ⟨by simp, by simp⟩
        · dsimp only
          split
          · rename_i hq
            exact absurd hq.1.1 (by omega)
          · exact ⟨by simp, by simp⟩
    · split
      · exact ⟨by simp, by simp⟩
      · split
        · exact ⟨by simp, by simp⟩
        · dsimp only
          split
          · rename_i hq
            exact absurd hused (by simpa using hq.2)
          · exact ⟨by simp, by simp⟩

/-- c9Env is a concrete environment: zsh default, sh fallback, 5000ms
crash threshold. -/
def c9Env : TermEnv :=
  { fallbackShell := "/bin/sh", defaultShell := "/bin/zsh", crashThresholdMs := 5000 }

/-- c9Crash is a non-persistent session dying with exit code 1 at
1200ms of age, fallback unused, fallback spawn succeeding. -/
def c9Crash : ExitInput :=
  { isPersistentBackend := false, isExpectedDetach := false,
    usedFallback := false, startTime := 100, scrollback := "old",
    now := 1300, exitCode := 1, fallbackSpawnSucceeds := true }

/-- c9Clean is the same session exiting with code 0. -/
def c9Clean : ExitInput :=
  { c9Crash with exitCode := 0 }

/-- c9_shell_crash_fallback_witness evaluates the C9 theorem at
concrete inputs: the crashing young session is respawned on /bin/sh
with its scrollback and no exit event, and the clean exit triggers no
fallback. -/
theorem c9_shell_crash_fallback_witness :
    (setupExitHandlerStep c9Env c9Crash =
        .fallbackRespawn { existingScrollback := some "old", useFallbackShell := true } ∧
      sessionShell c9Env true = "/bin/sh" ∧
      emitsExitEvent (setupExitHandlerStep c9Env c9Crash) = false) ∧
    (setupExitHandlerStep c9Env c9Clean ≠
        .fallbackRespawn { existingScrollback := some "old", useFallbackShell := true } ∧
      setupExitHandlerStep c9Env c9Clean ≠
        .fallbackFailedThenExit { existingScrollback := some "old", useFallbackShell := true }) :=
  ⟨(c9_shell_crash_fallback c9Env c9Crash).1 (by decide) (by decide) (by decide)
      (by decide) (by decide),
   (c9_shell_crash_fallback c9Env c9Clean).2 (Or.inl (by decide))
     { existingScrollback := some "old", useFallbackShell := true }⟩

end TerminalEngine
